import Mathlib

/-!
Shallow embedding of the stock-analyzer pipeline from `src/main.py` (the
FastAPI variant) and `src/temp.py` (the CLI variant).

Modelling conventions:
* USD amounts travel as rationals (ℚ); Python float rounding `round(x, 2)`
  is modelled by `pyRound2`, which rounds half to even like Python.
* Each external provider call is replaced by an injected response value.
  `none` models the exception path of a call (network fault, non-JSON body,
  missing key access): every stage wraps its body in a blanket handler that
  converts any exception into the sentinel return value seen in the source.
* Division by zero in `ticker_price_change` raises `ZeroDivisionError` in
  Python, which the blanket handler turns into the `(None, None)` return;
  the embedding makes that branch explicit because ℚ division is total.
* Quote field values are JSON values (`JsonVal`): numeric or not. A
  non-numeric `c` passes the `price is None` check (line 189) and then
  raises `TypeError` at the line-195 currency conversion, outside every
  stage handler: it reaches the catch-all of lines 235-240, whose Failure
  message embeds the exception text `str(e)`.
* `analyzeRun` additionally records which providers were invoked, so that
  short-circuiting ("no downstream call happens") is provable; the outcome
  itself is the first component, `analyze_stock_data`.
* The `timestamp` field of the response (a wall-clock ISO-8601 string) is
  outside the embedding and omitted from the result record.
-/

namespace StockAnalyzer

/-- Round half to even at integer precision, the tie behaviour of Python
`round`, written on the numerator and denominator so everything evaluates
inside the kernel. `n` is the floor of `x` and `r` the numerator of its
fractional part over `den`, so the fraction is below, above, or exactly one
half according as `2r` compares with `den`. -/
def roundHalfEven (x : ℚ) : ℤ :=
  let den : ℤ := (x.den : ℤ)
  let n : ℤ := x.num.fdiv den
  let r : ℤ := x.num - n * den
  if 2 * r < den then n
  else if den < 2 * r then n + 1
  else if n % 2 = 0 then n else n + 1

/-- Python `round(x, 2)` over the rational model. -/
def pyRound2 (x : ℚ) : ℚ := (roundHalfEven (x * 100) : ℚ) / 100

theorem fdiv_num_den (x : ℚ) : x.num.fdiv (x.den : ℤ) = ⌊x⌋ := by
  rw [Rat.floor_def]
  exact Int.fdiv_eq_ediv _ (by positivity)

theorem roundHalfEven_eq_down (x : ℚ) (n : ℤ) (h1 : (n : ℚ) ≤ x)
    (h2 : x < (n : ℚ) + 1/2) : roundHalfEven x = n := by
  have hfl : ⌊x⌋ = n := Int.floor_eq_iff.mpr ⟨h1, h2.trans_le (by norm_num)⟩
  have hden : (0 : ℚ) < (x.den : ℚ) := by exact_mod_cast x.den_pos
  have hx : (x.num : ℚ) = x * (x.den : ℚ) := by
    have h := Rat.num_div_den x
    rw [div_eq_iff hden.ne'] at h
    exact h
  have key : 2 * (x.num - n * (x.den : ℤ)) < (x.den : ℤ) := by
    have hq : (2 : ℚ) * ((x.num : ℚ) - (n : ℚ) * (x.den : ℚ)) < (x.den : ℚ) := by
      rw [hx]
      nlinarith [mul_lt_mul_of_pos_right (show x - (n : ℚ) < 1/2 by linarith) hden]
    exact_mod_cast hq
  simp only [roundHalfEven, fdiv_num_den, hfl]
  rw [if_pos key]

theorem roundHalfEven_eq_up (x : ℚ) (n : ℤ) (h1 : (n : ℚ) + 1/2 < x)
    (h2 : x < (n : ℚ) + 1) : roundHalfEven x = n + 1 := by
  have hfl : ⌊x⌋ = n := Int.floor_eq_iff.mpr ⟨by linarith, by exact_mod_cast h2⟩
  have hden : (0 : ℚ) < (x.den : ℚ) := by exact_mod_cast x.den_pos
  have hx : (x.num : ℚ) = x * (x.den : ℚ) := by
    have h := Rat.num_div_den x
    rw [div_eq_iff hden.ne'] at h
    exact h
  have key : (x.den : ℤ) < 2 * (x.num - n * (x.den : ℤ)) := by
    have hq : (x.den : ℚ) < (2 : ℚ) * ((x.num : ℚ) - (n : ℚ) * (x.den : ℚ)) := by
      rw [hx]
      nlinarith [mul_lt_mul_of_pos_right (show (1:ℚ)/2 < x - (n : ℚ) by linarith) hden]
    exact_mod_cast hq
  simp only [roundHalfEven, fdiv_num_den, hfl]
  rw [if_neg (not_lt.mpr key.le), if_pos key]

theorem pyRound2_eq_down (x : ℚ) (n : ℤ) (h1 : (n : ℚ) ≤ x * 100)
    (h2 : x * 100 < (n : ℚ) + 1/2) : pyRound2 x = (n : ℚ) / 100 := by
  rw [pyRound2, roundHalfEven_eq_down (x * 100) n h1 h2]

theorem pyRound2_eq_up (x : ℚ) (n : ℤ) (h1 : (n : ℚ) + 1/2 < x * 100)
    (h2 : x * 100 < (n : ℚ) + 1) : pyRound2 x = ((n : ℚ) + 1) / 100 := by
  rw [pyRound2, roundHalfEven_eq_up (x * 100) n h1 h2]
  push_cast
  ring

/-- `rupees_from_usd` (src/main.py lines 72-74, src/temp.py lines 18-20). -/
def rupees_from_usd (usd_amount : ℚ) : ℚ :=
  let conversion_rate : ℚ := 82
  pyRound2 (usd_amount * conversion_rate)

/-- One entry of the symbol-search `result` array. -/
structure SearchMatch where
  symbol : String
  description : String
  deriving DecidableEq

/-- Body of a successfully parsed symbol-search response. -/
structure SearchResp where
  count : Int
  result : List SearchMatch
  deriving DecidableEq

/-- A JSON field value of the quote payload: Python hands `data.get` results
through untyped, so a present field may hold a number or a non-numeric
value; `str` is the non-numeric representative, matching the TypeError
text modelled below. -/
inductive JsonVal where
  | num : ℚ → JsonVal
  | str : String → JsonVal
  deriving DecidableEq

/-- Body of a successfully parsed quote response; the provider may omit
either field (`data.get` returns `None`), and a present field holds an
arbitrary JSON value. -/
structure QuoteResp where
  c : Option JsonVal
  pc : Option JsonVal
  deriving DecidableEq

/-- One news article; `description` may be absent (`a.get`). -/
structure Article where
  title : String
  description : Option String
  deriving DecidableEq

/-- Body of a successfully parsed news response; either key may be absent
or null. -/
structure NewsResp where
  articles : Option (List Article)
  results : Option (List Article)
  deriving DecidableEq

/-- One pipeline invocation: the response each provider would give when
called. `none` = the call raises (transport fault / malformed body). -/
structure Env where
  searchResp : Option SearchResp
  quoteResp : Option QuoteResp
  newsResp : Option NewsResp
  groqResp : Option String
  deriving DecidableEq

/-- `identify_ticker` (src/main.py lines 76-90). `none` is the
`(None, None)` return: zero reported matches, the exception path, or the
`IndexError` when `count > 0` yet the result list is empty. -/
def identify_ticker (resp : Option SearchResp) : Option (String × String) :=
  match resp with
  | none => none
  | some data =>
    if 0 < data.count then
      match data.result.head? with
      | some m => some (m.symbol, m.description)
      | none => none
    else none

/-- `ticker_price` (src/main.py lines 92-102): returns `data.get` of the
`c` field verbatim, whatever JSON value it holds; `none` on the exception
path. -/
def ticker_price (resp : Option QuoteResp) : Option JsonVal :=
  match resp with
  | none => none
  | some data => data.c

/-- `ticker_price_change` (src/main.py lines 104-122, src/temp.py lines
36-47). A missing field raises `ValueError`; a non-numeric field raises
`TypeError` at the subtraction; `previous_close = 0` raises
`ZeroDivisionError` at `change / previous_close`; in main.py all three are
caught by the blanket handler, yielding the `(None, None)` return. -/
def ticker_price_change (resp : Option QuoteResp) : Option (ℚ × ℚ) :=
  match resp with
  | none => none
  | some data =>
    match data.c, data.pc with
    | some (JsonVal.num current_price), some (JsonVal.num previous_close) =>
      if previous_close = 0 then none
      else
        let change := current_price - previous_close
        let percent_change := change / previous_close * 100
        some (pyRound2 change, pyRound2 percent_change)
    | _, _ => none

/-- `data.get("articles") or data.get("results", [])`: Python `or` falls
through when the left side is `None` or an empty list. -/
def newsArticles (data : NewsResp) : List Article :=
  match data.articles with
  | some l => if l.isEmpty then data.results.getD [] else l
  | none => data.results.getD []

/-- The `" ".join(f"{title}. {description}")` aggregation. -/
def combineNews (articles : List Article) : String :=
  String.intercalate " "
    (articles.map (fun a => a.title ++ ". " ++ a.description.getD ""))

/-- `ticker_news` (src/main.py lines 124-141, src/temp.py lines 49-65).
`none` input = the exception path (transport fault or non-JSON body). -/
def ticker_news (resp : Option NewsResp) : String × List Article :=
  match resp with
  | none => ("No news available.", [])
  | some data =>
    let articles := newsArticles data
    if articles.isEmpty then ("No recent news available.", [])
    else (combineNews articles, articles)

/-- The fallback string of `summarize_with_groq` (src/main.py line 172). -/
def groqFallbackMsg : String :=
  "Unable to generate detailed analysis at this time. Please try again later."

/-- `summarize_with_groq` (src/main.py lines 143-172): on success the model
content is returned verbatim; any provider fault is caught and replaced by
the fixed fallback string. -/
def summarize_with_groq (resp : Option String) : String :=
  match resp with
  | none => groqFallbackMsg
  | some content => content

/-- Stage-1 failure message (src/main.py line 182; the emoji marker prefix
of the source string is omitted). -/
def notFoundMsg : String :=
  "Couldn\x27t identify a valid company in your query. Please try a different company name or ticker symbol."

/-- Stage-2 failure message (src/main.py line 192). -/
def priceFailMsg : String :=
  "Unable to fetch current price data. Please try again later."

/-- Stage-3 failure message (src/main.py line 203). -/
def changeFailMsg : String :=
  "Unable to fetch price change data. Please try again later."

/-- `str(e)` of the TypeError CPython raises when the raw quote value is a
string and line 195 multiplies it by the float conversion rate. -/
def strTimesFloatTypeErrorText : String :=
  "can\x27t multiply sequence by non-int of type \x27float\x27"

/-- The catch-all Failure message of src/main.py lines 235-240 (emoji
marker omitted): it embeds the raw exception text verbatim. -/
def unexpectedErrMsg (e : String) : String :=
  "An unexpected error occurred: " ++ e

/-- The `data` record of a successful response (src/main.py lines 221-232);
`timestamp` omitted, see file header. -/
structure StockData where
  company : String
  ticker : String
  price : ℚ
  price_inr : ℚ
  change : ℚ
  change_inr : ℚ
  percent : ℚ
  analysis : String
  news_articles : Nat
  deriving DecidableEq

/-- The pipeline outcome: `{"success": true, "data": ...}` or
`{"success": false, "error": ...}`. -/
inductive Outcome where
  | success : StockData → Outcome
  | failure : String → Outcome
  deriving DecidableEq

/-- Which external provider a stage call hits. -/
inductive ProviderCall where
  | search
  | quote
  | news
  | groq
  deriving DecidableEq

/-- `analyze_stock_data` (src/main.py lines 174-240), instrumented with the
list of provider calls issued. The catch-all of lines 235-240 is
reachable: a non-numeric quote `c` value passes the `price is None` check
and raises TypeError at the line-195 `rupees_from_usd(price)`, outside
every stage handler, so its Failure message embeds the exception text. The
`if ticker = ""` test is the Python truthiness check `if not ticker` on a
returned symbol string. -/
def analyzeRun (env : Env) : Outcome × List ProviderCall :=
  match identify_ticker env.searchResp with
  | none => (Outcome.failure notFoundMsg, [ProviderCall.search])
  | some (ticker, company) =>
    if ticker = "" then (Outcome.failure notFoundMsg, [ProviderCall.search])
    else
      match ticker_price env.quoteResp with
      | none => (Outcome.failure priceFailMsg, [ProviderCall.search, ProviderCall.quote])
      | some (JsonVal.str _) =>
        (Outcome.failure (unexpectedErrMsg strTimesFloatTypeErrorText),
         [ProviderCall.search, ProviderCall.quote])
      | some (JsonVal.num price) =>
        match ticker_price_change env.quoteResp with
        | none =>
          (Outcome.failure changeFailMsg,
           [ProviderCall.search, ProviderCall.quote, ProviderCall.quote])
        | some (change, percent) =>
          let tn := ticker_news env.newsResp
          let analysis := summarize_with_groq env.groqResp
          (Outcome.success {
             company := company
             ticker := ticker
             price := pyRound2 price
             price_inr := rupees_from_usd price
             change := pyRound2 change
             change_inr := rupees_from_usd change
             percent := pyRound2 percent
             analysis := analysis
             news_articles := tn.2.length },
           [ProviderCall.search, ProviderCall.quote, ProviderCall.quote,
            ProviderCall.news, ProviderCall.groq])

/-- The outcome of one pipeline invocation. -/
def analyze_stock_data (env : Env) : Outcome := (analyzeRun env).1

/-- Shared shape lemma: when the search yields a first match with a
non-empty symbol and the quote carries both fields with a non-zero
previous close, the pipeline succeeds and every result field is as the
source computes it. -/
theorem analyzeRun_success (cnt : Int) (m : SearchMatch) (rest : List SearchMatch)
    (c pc : ℚ) (newsR : Option NewsResp) (groqR : Option String)
    (hcnt : 0 < cnt) (hm : m.symbol ≠ "") (hpc : pc ≠ 0) :
    analyzeRun ⟨some ⟨cnt, m :: rest⟩, some ⟨some (JsonVal.num c), some (JsonVal.num pc)⟩, newsR, groqR⟩ =
      (Outcome.success {
         company := m.description
         ticker := m.symbol
         price := pyRound2 c
         price_inr := rupees_from_usd c
         change := pyRound2 (pyRound2 (c - pc))
         change_inr := rupees_from_usd (pyRound2 (c - pc))
         percent := pyRound2 (pyRound2 ((c - pc) / pc * 100))
         analysis := summarize_with_groq groqR
         news_articles := (ticker_news newsR).2.length },
       [ProviderCall.search, ProviderCall.quote, ProviderCall.quote,
        ProviderCall.news, ProviderCall.groq]) := by
  simp [analyzeRun, identify_ticker, ticker_price, ticker_price_change, hcnt, hm, hpc]

/-- C1: for every currentPrice and previousClose with previousClose ≠ 0,
the change computation returns `round(current - previous, 2)` and
`round((current - previous) / previous * 100, 2)`, the percentage taken
from the unrounded difference. -/
theorem change_computation_correct (current_price previous_close : ℚ)
    (hpc : previous_close ≠ 0) :
    ticker_price_change (some ⟨some (JsonVal.num current_price), some (JsonVal.num previous_close)⟩) =
      some (pyRound2 (current_price - previous_close),
            pyRound2 ((current_price - previous_close) / previous_close * 100)) := by
  simp [ticker_price_change, hpc]

theorem change_computation_correct_witness :
    (148 : ℚ) ≠ 0 ∧
      ticker_price_change (some ⟨some (JsonVal.num 150), some (JsonVal.num 148)⟩) =
        some (pyRound2 (150 - 148), pyRound2 ((150 - 148) / 148 * 100)) :=
  ⟨by norm_num, change_computation_correct 150 148 (by norm_num)⟩

/-- C2: with currentPrice present and previousClose = 0 the change stage
fails (Python raises ZeroDivisionError, converted by the stage handler to
the `(None, None)` return, never a silent zero result), and the pipeline
returns the stage-3 Failure. -/
theorem zero_previous_close_fails (cnt : Int) (m : SearchMatch)
    (rest : List SearchMatch) (c : ℚ) (newsR : Option NewsResp)
    (groqR : Option String) (hcnt : 0 < cnt) (hm : m.symbol ≠ "") :
    ticker_price_change (some ⟨some (JsonVal.num c), some (JsonVal.num 0)⟩) = none ∧
      analyze_stock_data ⟨some ⟨cnt, m :: rest⟩, some ⟨some (JsonVal.num c), some (JsonVal.num 0)⟩, newsR, groqR⟩ =
        Outcome.failure changeFailMsg := by
  refine ⟨by simp [ticker_price_change], ?_⟩
  simp [analyze_stock_data, analyzeRun, identify_ticker, ticker_price,
    ticker_price_change, hcnt, hm]

theorem zero_previous_close_fails_witness :
    (0 : Int) < 1 ∧ ("AAPL" : String) ≠ "" ∧
      (ticker_price_change (some ⟨some (JsonVal.num 150), some (JsonVal.num 0)⟩) = none ∧
        analyze_stock_data
            ⟨some ⟨1, [⟨"AAPL", "Apple Inc"⟩]⟩, some ⟨some (JsonVal.num 150), some (JsonVal.num 0)⟩, none, none⟩ =
          Outcome.failure changeFailMsg) :=
  ⟨by decide, by decide,
    zero_previous_close_fails 1 ⟨"AAPL", "Apple Inc"⟩ [] 150 none none
      (by decide) (by decide)⟩

/-- The environment of end-to-end scenario A: query resolves to AAPL,
quote current = 150.00, previous close = 148.00. -/
def scenarioAEnv : Env :=
  { searchResp := some { count := 1, result := [{ symbol := "AAPL", description := "Apple Inc" }] }
    quoteResp := some { c := some (JsonVal.num 150), pc := some (JsonVal.num 148) }
    newsResp := some { articles := none, results := none }
    groqResp := some "Sample analysis." }

/-- C3: scenario A returns Success with exactly change = 2.00,
percent = 1.35, price_inr = 12300.0 and change_inr = 164.0. -/
theorem scenarioA_exact_fields :
    ∃ d : StockData, analyze_stock_data scenarioAEnv = Outcome.success d ∧
      d.ticker = "AAPL" ∧ d.change = 2 ∧ d.percent = 135/100 ∧
      d.price_inr = 12300 ∧ d.change_inr = 164 := by
  have e2 : pyRound2 (2 : ℚ) = 2 := by
    rw [pyRound2_eq_down 2 200 (by norm_num) (by norm_num)]
    norm_num
  have echange : pyRound2 ((150 : ℚ) - 148) = 2 := by
    rw [show ((150 : ℚ) - 148) = 2 by norm_num]
    exact e2
  refine ⟨_, rfl, rfl, ?_, ?_, ?_, ?_⟩
  · show pyRound2 (pyRound2 ((150 : ℚ) - 148)) = 2
    rw [echange, e2]
  · show pyRound2 (pyRound2 (((150 : ℚ) - 148) / 148 * 100)) = 135/100
    rw [pyRound2_eq_down (((150 : ℚ) - 148) / 148 * 100) 135 (by norm_num) (by norm_num)]
    rw [pyRound2_eq_down (((135 : ℤ) : ℚ) / 100) 135 (by norm_num) (by norm_num)]
    norm_num
  · show rupees_from_usd 150 = 12300
    simp only [rupees_from_usd]
    rw [show (150 : ℚ) * 82 = 12300 by norm_num,
      pyRound2_eq_down 12300 1230000 (by norm_num) (by norm_num)]
    norm_num
  · show rupees_from_usd (pyRound2 ((150 : ℚ) - 148)) = 164
    rw [echange]
    simp only [rupees_from_usd]
    rw [show (2 : ℚ) * 82 = 164 by norm_num,
      pyRound2_eq_down 164 16400 (by norm_num) (by norm_num)]
    norm_num

/-- C4: when the symbol search reports zero matches, the pipeline returns
the not-found Failure whatever the downstream providers would answer, and
the only provider call issued is the search itself. -/
theorem zero_matches_short_circuit (result : List SearchMatch)
    (quoteR : Option QuoteResp) (newsR : Option NewsResp) (groqR : Option String) :
    analyzeRun ⟨some ⟨0, result⟩, quoteR, newsR, groqR⟩ =
      (Outcome.failure notFoundMsg, [ProviderCall.search]) := by
  simp [analyzeRun, identify_ticker]

/-- Every pipeline run ends in one of the three stage failures, the
catch-all failure of the non-numeric-price path, or a success. -/
theorem analyze_cases (env : Env) :
    analyze_stock_data env = Outcome.failure notFoundMsg ∨
    analyze_stock_data env = Outcome.failure priceFailMsg ∨
    analyze_stock_data env = Outcome.failure changeFailMsg ∨
    analyze_stock_data env = Outcome.failure (unexpectedErrMsg strTimesFloatTypeErrorText) ∨
    ∃ d, analyze_stock_data env = Outcome.success d := by
  unfold analyze_stock_data analyzeRun
  rcases hid : identify_ticker env.searchResp with _ | ⟨t, cname⟩
  · left; rfl
  · by_cases ht : t = ""
    · left; simp [ht]
    · rcases hq : ticker_price env.quoteResp with _ | v
      · right; left; simp [ht]
      · rcases v with p | sv
        · rcases hc : ticker_price_change env.quoteResp with _ | ⟨ch, pct⟩
          · right; right; left; simp [ht]
          · right; right; right; right
            exact ⟨StockData.mk cname t (pyRound2 p) (rupees_from_usd p)
              (pyRound2 ch) (rupees_from_usd ch) (pyRound2 pct)
              (summarize_with_groq env.groqResp)
              ((ticker_news env.newsResp).2.length), by simp [ht]⟩
        · right; right; right; left; simp [ht]

/-- C5 counterexample: a quote payload whose `c` field is the non-numeric
JSON value "abc" passes the `price is None` check, raises TypeError at the
line-195 conversion outside every stage handler, and the catch-all returns
a Failure whose message embeds the raw exception text, differing from all
three fixed stage messages. -/
theorem raw_exception_text_counterexample :
    analyze_stock_data ⟨some ⟨1, [⟨"AAPL", "Apple Inc"⟩]⟩,
        some ⟨some (JsonVal.str "abc"), some (JsonVal.num 148)⟩, none, none⟩ =
      Outcome.failure (unexpectedErrMsg strTimesFloatTypeErrorText) ∧
    unexpectedErrMsg strTimesFloatTypeErrorText =
      "An unexpected error occurred: " ++ strTimesFloatTypeErrorText ∧
    ¬(unexpectedErrMsg strTimesFloatTypeErrorText = notFoundMsg ∨
      unexpectedErrMsg strTimesFloatTypeErrorText = priceFailMsg ∨
      unexpectedErrMsg strTimesFloatTypeErrorText = changeFailMsg) :=
  ⟨rfl, rfl, by decide⟩

/-- C5 amended: every Failure the pipeline returns carries one of the
three fixed human-readable stage messages, except that a quote payload
with a non-numeric currentPrice escapes the stage handlers and reaches the
catch-all of lines 235-240, whose message embeds the raw exception text
of `str(e)`. -/
theorem failure_messages_classified (env : Env) (msg : String)
    (h : analyze_stock_data env = Outcome.failure msg) :
    msg = notFoundMsg ∨ msg = priceFailMsg ∨ msg = changeFailMsg ∨
      msg = unexpectedErrMsg strTimesFloatTypeErrorText := by
  rcases analyze_cases env with h1 | h1 | h1 | h1 | ⟨d, h1⟩ <;> rw [h1] at h
  · exact Or.inl (Outcome.failure.inj h.symm)
  · exact Or.inr (Or.inl (Outcome.failure.inj h.symm))
  · exact Or.inr (Or.inr (Or.inl (Outcome.failure.inj h.symm)))
  · exact Or.inr (Or.inr (Or.inr (Outcome.failure.inj h.symm)))
  · exact Outcome.noConfusion h

theorem failure_messages_classified_witness :
    analyze_stock_data ⟨none, none, none, none⟩ = Outcome.failure notFoundMsg ∧
      (notFoundMsg = notFoundMsg ∨ notFoundMsg = priceFailMsg ∨
        notFoundMsg = changeFailMsg ∨
        notFoundMsg = unexpectedErrMsg strTimesFloatTypeErrorText) :=
  ⟨rfl, failure_messages_classified ⟨none, none, none, none⟩ notFoundMsg rfl⟩

/-- C10: a positive match count whose first match carries an empty-string
symbol is conflated with no match by the `if not ticker` truthiness check:
the pipeline returns the not-found Failure. -/
theorem empty_symbol_not_found (cnt : Int) (str : String)
    (rest : List SearchMatch) (quoteR : Option QuoteResp)
    (newsR : Option NewsResp) (groqR : Option String) (hcnt : 0 < cnt) :
    analyze_stock_data ⟨some ⟨cnt, ⟨"", str⟩ :: rest⟩, quoteR, newsR, groqR⟩ =
      Outcome.failure notFoundMsg := by
  simp [analyze_stock_data, analyzeRun, identify_ticker, hcnt]

theorem empty_symbol_not_found_witness :
    (0 : Int) < 1 ∧
      analyze_stock_data ⟨some ⟨1, [⟨"", "Ghost Corp"⟩]⟩, none, none, none⟩ =
        Outcome.failure notFoundMsg :=
  ⟨by decide, empty_symbol_not_found 1 "Ghost Corp" [] none none none (by decide)⟩

/-- C6 counterexample: a malformed/non-JSON news response does NOT yield
the marker text of the empty article list; the exception path returns the
distinct string of src/main.py line 141. -/
theorem malformed_news_marker_counterexample :
    (ticker_news none).1 ≠ "No recent news available." := by decide

/-- C6 amended: a malformed/non-JSON news response degrades to zero
articles with the marker text of the exception path, a string differing
from the empty-list marker, and the pipeline still reaches Success. -/
theorem malformed_news_degrades (cnt : Int) (m : SearchMatch)
    (rest : List SearchMatch) (c pc : ℚ) (groqR : Option String)
    (hcnt : 0 < cnt) (hm : m.symbol ≠ "") (hpc : pc ≠ 0) :
    ticker_news none = ("No news available.", []) ∧
    ∃ d, analyze_stock_data ⟨some ⟨cnt, m :: rest⟩, some ⟨some (JsonVal.num c), some (JsonVal.num pc)⟩, none, groqR⟩ =
      Outcome.success d ∧ d.news_articles = 0 := by
  refine ⟨rfl, ?_⟩
  have h := analyzeRun_success cnt m rest c pc none groqR hcnt hm hpc
  exact ⟨_, congrArg Prod.fst h, rfl⟩

theorem malformed_news_degrades_witness :
    (0 : Int) < 1 ∧ ("AAPL" : String) ≠ "" ∧ (148 : ℚ) ≠ 0 ∧
      (ticker_news none = ("No news available.", []) ∧
        ∃ d, analyze_stock_data
            ⟨some ⟨1, [⟨"AAPL", "Apple Inc"⟩]⟩, some ⟨some (JsonVal.num 150), some (JsonVal.num 148)⟩, none, none⟩ =
          Outcome.success d ∧ d.news_articles = 0) :=
  ⟨by decide, by decide, by norm_num,
    malformed_news_degrades 1 ⟨"AAPL", "Apple Inc"⟩ [] 150 148 none
      (by decide) (by decide) (by norm_num)⟩

/-- C7: an empty or absent article list yields the fixed marker text with
zero articles, and the pipeline still reaches Success once stages 1-3
succeeded. -/
theorem empty_news_success (na nr : Option (List Article))
    (hna : na = none ∨ na = some []) (hnr : nr = none ∨ nr = some [])
    (cnt : Int) (m : SearchMatch) (rest : List SearchMatch) (c pc : ℚ)
    (groqR : Option String)
    (hcnt : 0 < cnt) (hm : m.symbol ≠ "") (hpc : pc ≠ 0) :
    ticker_news (some ⟨na, nr⟩) = ("No recent news available.", []) ∧
    ∃ d, analyze_stock_data
        ⟨some ⟨cnt, m :: rest⟩, some ⟨some (JsonVal.num c), some (JsonVal.num pc)⟩, some ⟨na, nr⟩, groqR⟩ =
      Outcome.success d ∧ d.news_articles = 0 := by
  have htn : ticker_news (some ⟨na, nr⟩) = ("No recent news available.", []) := by
    rcases hna with h | h <;> rcases hnr with h2 | h2 <;>
      simp [ticker_news, newsArticles, h, h2]
  refine ⟨htn, ?_⟩
  have h := analyzeRun_success cnt m rest c pc (some ⟨na, nr⟩) groqR hcnt hm hpc
  refine ⟨_, congrArg Prod.fst h, ?_⟩
  show (ticker_news (some ⟨na, nr⟩)).2.length = 0
  rw [htn]
  rfl

theorem empty_news_success_witness :
    ((none : Option (List Article)) = none ∨ (none : Option (List Article)) = some []) ∧
    ((none : Option (List Article)) = none ∨ (none : Option (List Article)) = some []) ∧
    (0 : Int) < 1 ∧ ("AAPL" : String) ≠ "" ∧ (148 : ℚ) ≠ 0 ∧
      (ticker_news (some ⟨none, none⟩) = ("No recent news available.", []) ∧
        ∃ d, analyze_stock_data
            ⟨some ⟨1, [⟨"AAPL", "Apple Inc"⟩]⟩, some ⟨some (JsonVal.num 150), some (JsonVal.num 148)⟩,
              some ⟨none, none⟩, none⟩ =
          Outcome.success d ∧ d.news_articles = 0) :=
  ⟨Or.inl rfl, Or.inl rfl, by decide, by decide, by norm_num,
    empty_news_success none none (Or.inl rfl) (Or.inl rfl) 1
      ⟨"AAPL", "Apple Inc"⟩ [] 150 148 none (by decide) (by decide) (by norm_num)⟩

/-- C8: on a summarizer provider fault the analysis field equals the fixed
fallback string and the pipeline still returns Success. -/
theorem summarizer_fault_fallback (cnt : Int) (m : SearchMatch)
    (rest : List SearchMatch) (c pc : ℚ) (newsR : Option NewsResp)
    (hcnt : 0 < cnt) (hm : m.symbol ≠ "") (hpc : pc ≠ 0) :
    summarize_with_groq none = groqFallbackMsg ∧
    ∃ d, analyze_stock_data ⟨some ⟨cnt, m :: rest⟩, some ⟨some (JsonVal.num c), some (JsonVal.num pc)⟩, newsR, none⟩ =
      Outcome.success d ∧ d.analysis = groqFallbackMsg := by
  refine ⟨rfl, ?_⟩
  have h := analyzeRun_success cnt m rest c pc newsR none hcnt hm hpc
  exact ⟨_, congrArg Prod.fst h, rfl⟩

theorem summarizer_fault_fallback_witness :
    (0 : Int) < 1 ∧ ("AAPL" : String) ≠ "" ∧ (148 : ℚ) ≠ 0 ∧
      (summarize_with_groq none = groqFallbackMsg ∧
        ∃ d, analyze_stock_data
            ⟨some ⟨1, [⟨"AAPL", "Apple Inc"⟩]⟩, some ⟨some (JsonVal.num 150), some (JsonVal.num 148)⟩, none, none⟩ =
          Outcome.success d ∧ d.analysis = groqFallbackMsg) :=
  ⟨by decide, by decide, by norm_num,
    summarizer_fault_fallback 1 ⟨"AAPL", "Apple Inc"⟩ [] 150 148 none
      (by decide) (by decide) (by norm_num)⟩

/-- A run whose raw current price 0.004 USD rounds to a reported price of
0.00 while its INR conversion is computed from the raw value. -/
def c9Env : Env :=
  { searchResp := some { count := 1, result := [{ symbol := "XYZ", description := "XYZ Corp" }] }
    quoteResp := some { c := some (JsonVal.num (1/250)), pc := some (JsonVal.num 1) }
    newsResp := none
    groqResp := none }

/-- C9: change_inr converts the already-rounded change while price_inr
converts the raw provider price, so price_inr can differ from converting
the reported 2-decimal price (witnessed by the raw price 1/250 USD). -/
theorem inr_conversion_shape (cnt : Int) (m : SearchMatch)
    (rest : List SearchMatch) (c pc : ℚ) (newsR : Option NewsResp)
    (groqR : Option String)
    (hcnt : 0 < cnt) (hm : m.symbol ≠ "") (hpc : pc ≠ 0) :
    (∃ d, analyze_stock_data ⟨some ⟨cnt, m :: rest⟩, some ⟨some (JsonVal.num c), some (JsonVal.num pc)⟩, newsR, groqR⟩ =
        Outcome.success d ∧
      d.change_inr = pyRound2 (pyRound2 (c - pc) * 82) ∧
      d.price_inr = pyRound2 (c * 82) ∧ d.price = pyRound2 c) ∧
    (∃ d, analyze_stock_data c9Env = Outcome.success d ∧
      d.price_inr ≠ pyRound2 (d.price * 82)) := by
  constructor
  · have h := analyzeRun_success cnt m rest c pc newsR groqR hcnt hm hpc
    exact ⟨_, congrArg Prod.fst h, rfl, rfl, rfl⟩
  · have h2 := analyzeRun_success 1 ⟨"XYZ", "XYZ Corp"⟩ [] (1/250) 1 none none
      (by decide) (by decide) (by norm_num)
    refine ⟨_, congrArg Prod.fst h2, ?_⟩
    show pyRound2 ((1 : ℚ)/250 * 82) ≠ pyRound2 (pyRound2 ((1 : ℚ)/250) * 82)
    have ha : pyRound2 ((1 : ℚ)/250 * 82) = 33/100 := by
      rw [pyRound2_eq_up ((1 : ℚ)/250 * 82) 32 (by norm_num) (by norm_num)]
      norm_num
    have hb : pyRound2 ((1 : ℚ)/250) = 0 := by
      rw [pyRound2_eq_down ((1 : ℚ)/250) 0 (by norm_num) (by norm_num)]
      norm_num
    have hz : pyRound2 (pyRound2 ((1 : ℚ)/250) * 82) = 0 := by
      rw [hb, show (0 : ℚ) * 82 = 0 by norm_num,
        pyRound2_eq_down 0 0 (by norm_num) (by norm_num)]
      norm_num
    rw [ha, hz]
    norm_num

theorem inr_conversion_shape_witness :
    (0 : Int) < 1 ∧ ("AAPL" : String) ≠ "" ∧ (148 : ℚ) ≠ 0 ∧
      ((∃ d, analyze_stock_data
            ⟨some ⟨1, [⟨"AAPL", "Apple Inc"⟩]⟩, some ⟨some (JsonVal.num 150), some (JsonVal.num 148)⟩, none, none⟩ =
          Outcome.success d ∧
        d.change_inr = pyRound2 (pyRound2 ((150 : ℚ) - 148) * 82) ∧
        d.price_inr = pyRound2 ((150 : ℚ) * 82) ∧ d.price = pyRound2 150) ∧
      (∃ d, analyze_stock_data c9Env = Outcome.success d ∧
        d.price_inr ≠ pyRound2 (d.price * 82))) :=
  ⟨by decide, by decide, by norm_num,
    inr_conversion_shape 1 ⟨"AAPL", "Apple Inc"⟩ [] 150 148 none none
      (by decide) (by decide) (by norm_num)⟩

end StockAnalyzer
